import Mathlib

/-!
Verification of the convex-optimization modeling layer described by the
repository's specification.  The repository's own files are Jupyter notebook
cells that call an external modeling library (`cvxpy`); the modeling layer
itself is therefore modelled from the specification, while the concrete
optimization scenarios (the LP of Scenario 1, the tightened LP of Scenario 2,
the 2-D infeasible problem of Scenario 4, the least-squares problem of
Scenario 3) are taken from the notebook cells under `src/`.

Two layers are formalised:

* a symbolic layer — expression trees with shape and curvature tags, smart
  constructors that fail with `ShapeMismatch`, a `Problem.build` that fails
  with `DCPViolation`, and a solve pipeline that maps external solver output
  into a `SolveResult` and writes values back onto variables;
* a semantic layer — optimization problems as feasibility predicates and
  objectives over `ℝ`, with `ResultCorrect` modelling the contract of an
  ideal deterministic solver (status `optimal` iff an optimizer is attained,
  `infeasible` iff the feasible set is empty, `unbounded` iff the objective
  is unbounded over a nonempty feasible set).
-/

namespace Cvx

/-- Modelled from the spec: the shape of an expression's value — scalar or
fixed-length vector (§3 "Shape"). -/
inductive Shape where
  | scalar : Shape
  | vec : ℕ → Shape
deriving DecidableEq, Repr

/-- Modelled from the spec: the DCP curvature tag carried by every
expression node (§9, Glossary). -/
inductive Curvature where
  | affine : Curvature
  | convex : Curvature
  | concave : Curvature
  | unknown : Curvature
deriving DecidableEq, Repr

/-- Modelled from the spec: the norm order p ∈ {1, 2, ∞} (§3, §4.1). -/
inductive NormOrder where
  | one : NormOrder
  | two : NormOrder
  | inf : NormOrder
deriving DecidableEq, Repr

/-- Modelled from the spec: objective sense (§3 "Objective"). -/
inductive Sense where
  | minimize : Sense
  | maximize : Sense
deriving DecidableEq, Repr

/-- Modelled from the spec (§3, §9): the tagged expression tree
{Variable, Parameter, Constant, Sum, Scale, Norm, MatMul} plus the explicit
`square` composition used by the least-squares cells. A parameter carries its
optional nonnegative-sign tag (§3 "Parameter"). Matrices are row lists. -/
inductive Expr where
  | var : ℕ → Shape → Expr
  | param : ℕ → Shape → Bool → Expr
  | const : ℚ → Expr
  | vconst : List ℚ → Expr
  | sum : Expr → Expr → Expr
  | scale : ℚ → Expr → Expr
  | norm : NormOrder → Expr → Expr
  | matmul : List (List ℚ) → Expr → Expr
  | square : Expr → Expr
deriving DecidableEq, Repr

/-- Modelled from the spec (§4.1): standard broadcasting — a scalar combines
with anything, two vectors must have equal length. -/
def broadcastShape : Shape → Shape → Option Shape
  | .scalar, s => some s
  | s, .scalar => some s
  | .vec m, .vec n => if m = n then some (.vec m) else none

/-- The shape of an expression (meaningful for trees assembled through the
checking constructors below). -/
def Expr.shape : Expr → Shape
  | .var _ s => s
  | .param _ s _ => s
  | .const _ => .scalar
  | .vconst v => .vec v.length
  | .sum a b => (broadcastShape a.shape b.shape).getD .scalar
  | .scale _ e => e.shape
  | .norm _ _ => .scalar
  | .matmul rows _ => .vec rows.length
  | .square e => e.shape

/-- Curvature of a sum of two tagged expressions (DCP rule). -/
def Curvature.add : Curvature → Curvature → Curvature
  | .affine, c => c
  | c, .affine => c
  | .convex, .convex => .convex
  | .concave, .concave => .concave
  | _, _ => .unknown

/-- Curvature under negation / negative scaling. -/
def Curvature.flip : Curvature → Curvature
  | .affine => .affine
  | .convex => .concave
  | .concave => .convex
  | .unknown => .unknown

/-- A convex-or-affine curvature tag. -/
def Curvature.isConvex : Curvature → Bool
  | .affine => true
  | .convex => true
  | _ => false

/-- A concave-or-affine curvature tag. -/
def Curvature.isConcave : Curvature → Bool
  | .affine => true
  | .concave => true
  | _ => false

/-- Modelled from the spec (§4.1): structural nonnegativity, used for the
"square of a nonnegative convex expression is convex" rule. A parameter is
nonnegative when its sign tag says so. -/
def Expr.nonneg : Expr → Bool
  | .var _ _ => false
  | .param _ _ tag => tag
  | .const c => decide (0 ≤ c)
  | .vconst v => v.all fun c => decide (0 ≤ c)
  | .sum a b => a.nonneg && b.nonneg
  | .scale c e => decide (0 ≤ c) && e.nonneg
  | .norm _ _ => true
  | .matmul _ _ => false
  | .square _ => true

/-- Modelled from the spec (§4.1, §9, Glossary): structural DCP curvature.
Leaves are affine; a sum combines curvatures; scaling by a negative constant
flips curvature; a norm of an affine expression is convex; a matrix product
with an affine expression is affine; the square of an affine expression, or
of a nonnegative convex expression, is convex. -/
def Expr.curvature : Expr → Curvature
  | .var _ _ => .affine
  | .param _ _ _ => .affine
  | .const _ => .affine
  | .vconst _ => .affine
  | .sum a b => a.curvature.add b.curvature
  | .scale c e => if 0 ≤ c then e.curvature else e.curvature.flip
  | .norm _ e => if e.curvature = .affine then .convex else .unknown
  | .matmul _ e => if e.curvature = .affine then .affine else .unknown
  | .square e =>
      if e.curvature = .affine ∨ (e.curvature = .convex ∧ e.nonneg) then .convex
      else .unknown

/-- Modelled from the spec (§7): the construction-time error kinds. -/
inductive ModelError where
  | shapeMismatch : ModelError
  | dcpViolation : ModelError
deriving DecidableEq, Repr

/-- Modelled from the spec (§4.1): addition of expressions validates shape
compatibility and fails immediately with `ShapeMismatch` otherwise. -/
def Expr.add (a b : Expr) : Except ModelError Expr :=
  match broadcastShape a.shape b.shape with
  | some _ => .ok (.sum a b)
  | none => .error .shapeMismatch

/-- Modelled from the spec (§3 "Constraint"): relation of a constraint. -/
inductive Rel where
  | le : Rel
  | ge : Rel
  | eq : Rel
deriving DecidableEq, Repr

/-- Modelled from the spec (§3): a constraint is a pair of expressions and a
relation. -/
structure Constraint where
  lhs : Expr
  rhs : Expr
  rel : Rel
deriving DecidableEq, Repr

/-- Modelled from the spec (§3, §4.2): constraint construction validates that
both sides have matching shape after broadcasting, else `ShapeMismatch`. -/
def Constraint.build (l r : Expr) (rel : Rel) : Except ModelError Constraint :=
  match broadcastShape l.shape r.shape with
  | some _ => .ok ⟨l, r, rel⟩
  | none => .error .shapeMismatch

/-- Modelled from the spec (§4.2): DCP admissibility of a constraint — for
`≤` the left side must be convex and the right concave, symmetrically for
`≥`, and both sides of an equality must be affine. -/
def Constraint.dcpOk (c : Constraint) : Bool :=
  match c.rel with
  | .le => c.lhs.curvature.isConvex && c.rhs.curvature.isConcave
  | .ge => c.lhs.curvature.isConcave && c.rhs.curvature.isConvex
  | .eq => decide (c.lhs.curvature = .affine) && decide (c.rhs.curvature = .affine)

/-- Modelled from the spec (§3 "Objective"): a sense together with an
expression. -/
structure Objective where
  sense : Sense
  expr : Expr
deriving DecidableEq, Repr

/-- Modelled from the spec (§3, §4.2): the objective expression must be
scalar, a `Minimize` objective must be convex and a `Maximize` objective
concave. -/
def Objective.dcpOk (o : Objective) : Bool :=
  decide (o.expr.shape = .scalar) &&
    match o.sense with
    | .minimize => o.expr.curvature.isConvex
    | .maximize => o.expr.curvature.isConcave

/-- Modelled from the spec (§3 "Problem"): an objective with an ordered
sequence of constraints. -/
structure Problem where
  objective : Objective
  constraints : List Constraint
deriving DecidableEq, Repr

/-- Modelled from the spec (§4.3 `build`): problem construction fails with
`DCPViolation` when the objective or any constraint violates the convexity
discipline. -/
def Problem.build (o : Objective) (cs : List Constraint) : Except ModelError Problem :=
  if o.dcpOk && cs.all Constraint.dcpOk then .ok ⟨o, cs⟩ else .error .dcpViolation

/-- Modelled from the notebook's `cvx.Problem(obj)` call: constructing a
problem from an objective alone, with no constraints argument. -/
def Problem.build1 (o : Objective) : Except ModelError Problem :=
  if o.dcpOk then .ok ⟨o, []⟩ else .error .dcpViolation

/-- The variable ids referenced by an expression. -/
def Expr.varIds : Expr → List ℕ
  | .var i _ => [i]
  | .param _ _ _ => []
  | .const _ => []
  | .vconst _ => []
  | .sum a b => a.varIds ++ b.varIds
  | .scale _ e => e.varIds
  | .norm _ e => e.varIds
  | .matmul _ e => e.varIds
  | .square e => e.varIds

/-- The variable ids referenced by a constraint. -/
def Constraint.varIds (c : Constraint) : List ℕ :=
  c.lhs.varIds ++ c.rhs.varIds

/-- The variable ids referenced transitively by a problem's objective and
constraints (§4.3 "every Variable referenced transitively"). -/
def Problem.varIds (p : Problem) : List ℕ :=
  p.objective.expr.varIds ++ (p.constraints.map Constraint.varIds).flatten

/-- Modelled from the spec (§6): the status code returned by the external
solver collaborator. -/
inductive SolverStatus where
  | sOptimal : SolverStatus
  | sInfeasible : SolverStatus
  | sUnbounded : SolverStatus
  | sError : SolverStatus
deriving DecidableEq, Repr

/-- Modelled from the spec (§6): the external solver's output — status code,
optimal objective value or undefined, per-variable numeric assignment or
undefined. -/
structure SolverOutput where
  status : SolverStatus
  value : Option ℚ
  assignment : Option (ℕ → ℚ)

/-- Modelled from the spec (§3 "Problem", §4.3): the Result status taxonomy. -/
inductive Status where
  | optimal : Status
  | infeasible : Status
  | unbounded : Status
  | solverError : Status
deriving DecidableEq, Repr

/-- Modelled from the spec (§3 "Problem"): a solve produces a Result, namely
a status, an optimal value (or undefined) and a per-variable assignment (or
undefined). -/
structure SolveResult where
  status : Status
  value : Option ℚ
  assignment : Option (ℕ → ℚ)

/-- Modelled from the spec (§4.3 step (c)): mapping the solver's numeric
status into the Result status taxonomy. -/
def mapStatus : SolverStatus → Status
  | .sOptimal => .optimal
  | .sInfeasible => .infeasible
  | .sUnbounded => .unbounded
  | .sError => .solverError

/-- Modelled from the spec (§4.3, §7): the solver output is interpreted into
a Result; on a non-optimal status the value and assignment are undefined. -/
def interpretOutput (out : SolverOutput) : SolveResult :=
  match out.status with
  | .sOptimal => ⟨.optimal, out.value, out.assignment⟩
  | .sInfeasible => ⟨.infeasible, none, none⟩
  | .sUnbounded => ⟨.unbounded, none, none⟩
  | .sError => ⟨.solverError, none, none⟩

/-- Modelled from the spec (§4.3, §7): `solve` delegates to the external
solver and always returns a Result; solve-time outcomes (infeasible,
unbounded, solver error) are statuses inside the Result, never an error of
the `Except` monad. -/
def Problem.solve (_ : Problem) (out : SolverOutput) : Except ModelError SolveResult :=
  .ok (interpretOutput out)

/-- Post-solve variable store: each variable id maps to its stored value or
to the undefined sentinel `none`. -/
def VarStore : Type := ℕ → Option ℚ

/-- Parameter store: current value of each parameter id (§3 "Parameter"). -/
def ParamStore : Type := ℕ → ℚ

/-- Modelled from the spec (§6): a deterministic external solver is a
function of the canonicalized problem data — here the problem together with
the current parameter values. -/
def Solver : Type := Problem → ParamStore → SolverOutput

/-- Modelled from the spec (§4.3 side effect, §7): on a successful solve the
returned values are written onto every referenced variable; on an
infeasible/unbounded/error status the referenced variables' values are
explicitly invalidated to the undefined sentinel. Unreferenced variables are
untouched. -/
def writeBack (r : SolveResult) (vars : List ℕ) (store : VarStore) : VarStore :=
  fun v =>
    if v ∈ vars then
      match r.status, r.assignment with
      | .optimal, some a => some (a v)
      | _, _ => none
    else store v

/-- Modelled from the spec (§4.3): a full solve — canonicalize, delegate to
the external solver, interpret its output, and update the variable store. -/
def Problem.solveSession (p : Problem) (solver : Solver) (params : ParamStore)
    (store : VarStore) : SolveResult × VarStore :=
  let r := interpretOutput (solver p params)
  (r, writeBack r p.varIds store)

/-! ## Semantic layer

Optimization problems as feasibility predicates and objectives over `ℝ`,
with the contract of an ideal deterministic solver. -/

/-- A semantic Result over assignment type `α`: status, optimal value or
undefined, assignment or undefined (§3 "Problem"). -/
structure Result (α : Type*) where
  status : Status
  value : Option ℝ
  assignment : Option α

/-- A semantic optimization problem: a feasible set, an objective and a
sense. -/
structure OptProblem (α : Type*) where
  feasible : α → Prop
  objective : α → ℝ
  sense : Sense

/-- `v` is at least as good as `w` for the problem's sense. -/
def OptProblem.dominates (p : OptProblem α) (v w : ℝ) : Prop :=
  match p.sense with
  | .minimize => v ≤ w
  | .maximize => w ≤ v

/-- An optimal point: feasible, and at least as good as every feasible
point. -/
def OptProblem.IsOptimal (p : OptProblem α) (a : α) : Prop :=
  p.feasible a ∧ ∀ b, p.feasible b → p.dominates (p.objective a) (p.objective b)

/-- The objective is unbounded in the optimization direction over the
feasible set. -/
def OptProblem.Unbounded (p : OptProblem α) : Prop :=
  ∀ M : ℝ, ∃ a, p.feasible a ∧
    match p.sense with
    | .minimize => p.objective a < M
    | .maximize => M < p.objective a

/-- Modelled from the spec (§4.3, §6): the contract of an ideal
deterministic solver. Status `optimal` is reported with the objective value
of an attained optimal point written into the Result and onto the
assignment; status `infeasible` is reported exactly when no feasible point
exists; status `unbounded` exactly when the feasible set is nonempty and the
objective unbounded; the ideal solver never fails with `solverError`. -/
def ResultCorrect (p : OptProblem α) (r : Result α) : Prop :=
  match r.status with
  | .optimal => ∃ a, r.assignment = some a ∧ r.value = some (p.objective a) ∧ p.IsOptimal a
  | .infeasible => (∀ a, ¬ p.feasible a) ∧ r.value = none ∧ r.assignment = none
  | .unbounded => (∃ a, p.feasible a) ∧ p.Unbounded ∧ r.value = none ∧ r.assignment = none
  | .solverError => False

/-- Modelled from the spec (§4.1): the ℓ¹ norm atom, realized as the norm of
the Mathlib `PiLp 1` space; the spec's "sums absolute values" formula is
proved below. -/
noncomputable def cvxNorm1 {n : ℕ} (v : Fin n → ℝ) : ℝ :=
  ‖(WithLp.equiv 1 (Fin n → ℝ)).symm v‖

/-- Modelled from the spec (§4.1): the ℓ² (Euclidean) norm atom, realized as
the norm of the Mathlib Euclidean space. -/
noncomputable def cvxNorm2 {n : ℕ} (v : Fin n → ℝ) : ℝ :=
  ‖(WithLp.equiv 2 (Fin n → ℝ)).symm v‖

/-- Modelled from the spec (§4.1): the ℓ∞ norm atom, realized as the norm of
the Mathlib `PiLp ∞` space. -/
noncomputable def cvxNormInf {n : ℕ} (v : Fin n → ℝ) : ℝ :=
  ‖(WithLp.equiv ⊤ (Fin n → ℝ)).symm v‖

/-- The linear program of the first notebook cell (Scenario 1): maximize
`140x + 235y` subject to `x ≥ 0`, `y ≥ 0`, `x + y ≤ 180`, `x + 2y ≤ 240`,
`3x + y ≤ 300`. -/
def lp1 : OptProblem (ℝ × ℝ) where
  feasible := fun q =>
    0 ≤ q.1 ∧ 0 ≤ q.2 ∧ q.1 + q.2 ≤ 180 ∧ q.1 + 2 * q.2 ≤ 240 ∧ 3 * q.1 + q.2 ≤ 300
  objective := fun q => 140 * q.1 + 235 * q.2
  sense := .maximize

/-- The tightened problem of the second notebook cell (Scenario 2): the LP
of Scenario 1 with the constraint `x² + 2y² ≤ 1` appended. -/
def lp2 : OptProblem (ℝ × ℝ) where
  feasible := fun q =>
    0 ≤ q.1 ∧ 0 ≤ q.2 ∧ q.1 + q.2 ≤ 180 ∧ q.1 + 2 * q.2 ≤ 240 ∧ 3 * q.1 + q.2 ≤ 300 ∧
      q.1 ^ 2 + 2 * q.2 ^ 2 ≤ 1
  objective := fun q => 140 * q.1 + 235 * q.2
  sense := .maximize

/-- The 2-D problem of the last notebook code cell (Scenario 4): minimize
`x + y` subject to `x + y ≤ -5` and `x² + y² ≤ 1`. -/
def infeas2d : OptProblem (ℝ × ℝ) where
  feasible := fun q => q.1 + q.2 ≤ -5 ∧ q.1 ^ 2 + q.2 ^ 2 ≤ 1
  objective := fun q => q.1 + q.2
  sense := .minimize

/-- The unconstrained least-squares problem of the third notebook cell
(Scenario 3): minimize `‖A x − b‖` (Euclidean norm) over `x`, with `A` a
16 × 8 matrix and `b` a 16-vector, and no constraints. -/
noncomputable def leastSquares (A : Matrix (Fin 16) (Fin 8) ℝ) (b : Fin 16 → ℝ) :
    OptProblem (Fin 8 → ℝ) where
  feasible := fun _ => True
  objective := fun x => cvxNorm2 (fun i => A.mulVec x i - b i)
  sense := .minimize

/-! ## Norm formulas -/

theorem cvxNorm1_eq {n : ℕ} (v : Fin n → ℝ) : cvxNorm1 v = ∑ i, |v i| := by
  have h : (0 : ℝ) < (1 : ENNReal).toReal := by norm_num
  rw [cvxNorm1, PiLp.norm_eq_sum h]
  simp [WithLp.equiv_symm_pi_apply, Real.norm_eq_abs]

theorem cvxNorm2_eq {n : ℕ} (v : Fin n → ℝ) :
    cvxNorm2 v = Real.sqrt (∑ i, v i ^ 2) := by
  rw [cvxNorm2, EuclideanSpace.norm_eq]
  simp [WithLp.equiv_symm_pi_apply, Real.norm_eq_abs, sq_abs]

theorem cvxNormInf_eq {n : ℕ} (v : Fin n → ℝ)
    (H : (Finset.univ : Finset (Fin n)).Nonempty) :
    cvxNormInf v = Finset.univ.sup' H fun i => |v i| := by
  rw [cvxNormInf, PiLp.norm_eq_ciSup, Finset.sup'_eq_csSup_image, Finset.coe_univ,
    Set.image_univ]
  simp only [WithLp.equiv_symm_pi_apply, Real.norm_eq_abs, iSup]

/-! ## Scenario 1: the linear program -/

theorem lp1_feasible_opt : lp1.feasible (72, 84) := by
  refine ⟨by norm_num, by norm_num, by norm_num, by norm_num, by norm_num⟩

theorem lp1_bound {q : ℝ × ℝ} (h : lp1.feasible q) :
    lp1.objective q ≤ 29820 := by
  obtain ⟨hx, hy, h1, h2, h3⟩ := h
  show 140 * q.1 + 235 * q.2 ≤ 29820
  linarith

theorem lp1_obj_opt : lp1.objective (72, 84) = 29820 := by norm_num [lp1]

theorem lp1_unique {q : ℝ × ℝ} (h : lp1.feasible q)
    (hobj : lp1.objective q = 29820) : q = (72, 84) := by
  obtain ⟨hx, hy, h1, h2, h3⟩ := h
  have hobj' : 140 * q.1 + 235 * q.2 = 29820 := hobj
  have e2 : q.1 + 2 * q.2 = 240 := by linarith
  have e3 : 3 * q.1 + q.2 = 300 := by linarith
  have hq1 : q.1 = 72 := by linarith
  have hq2 : q.2 = 84 := by linarith
  exact Prod.ext hq1 hq2

/-- C8: for every vector v, the norm operation satisfies ‖v‖₁ = the sum of
the absolute values of the entries, ‖v‖₂ = the square root of the sum of the
squared entries, and ‖v‖∞ = the maximum absolute entry. -/
theorem claim_C8_norm_formulas {n : ℕ} (v : Fin n → ℝ) :
    cvxNorm1 v = ∑ i, |v i| ∧
    cvxNorm2 v = Real.sqrt (∑ i, v i ^ 2) ∧
    ∀ H : (Finset.univ : Finset (Fin n)).Nonempty,
      cvxNormInf v = Finset.univ.sup' H fun i => |v i| :=
  ⟨cvxNorm1_eq v, cvxNorm2_eq v, fun H => cvxNormInf_eq v H⟩

theorem claim_C8_norm_formulas_witness :
    cvxNormInf ![(3 : ℝ), -4] =
      Finset.univ.sup' ⟨0, Finset.mem_univ 0⟩ (fun i => |![(3 : ℝ), -4] i|) :=
  (claim_C8_norm_formulas ![(3 : ℝ), -4]).2.2 ⟨0, Finset.mem_univ 0⟩

/-- C1 counterexample: the Result claimed by the specification for
Scenario 1 — status optimal, value 27100, assignment (60, 120) — is not a
correct solver outcome for that linear program: (60, 120) violates the
constraint x + 2y ≤ 240 (60 + 240 = 300 > 240). -/
theorem claim_C1_counterexample :
    ¬ ResultCorrect lp1 ⟨.optimal, some 27100, some (60, 120)⟩ := by
  intro h
  have h' : ∃ a : ℝ × ℝ, (some ((60 : ℝ), (120 : ℝ))) = some a ∧
      (some (27100 : ℝ)) = some (lp1.objective a) ∧ lp1.IsOptimal a := h
  obtain ⟨a, ha, -, hfeas, -⟩ := h'
  obtain rfl : a = (60, 120) := (Option.some_inj.mp ha).symm
  have hcon : (60 : ℝ) + 2 * 120 ≤ 240 := hfeas.2.2.2.1
  norm_num at hcon

/-- C1 (amended): for the linear program maximizing 140x + 235y subject to
x + y ≤ 180, x + 2y ≤ 240, 3x + y ≤ 300, x ≥ 0, y ≥ 0, every correct solver
Result has status optimal with optimal value 29820 attained at the unique
optimizer x = 72, y = 84. -/
theorem claim_C1_lp_solution (r : Result (ℝ × ℝ)) (h : ResultCorrect lp1 r) :
    r.status = .optimal ∧ r.value = some 29820 ∧ r.assignment = some (72, 84) := by
  obtain ⟨st, val, asg⟩ := r
  cases st with
  | optimal =>
      have h' : ∃ a : ℝ × ℝ, asg = some a ∧ val = some (lp1.objective a) ∧
          lp1.IsOptimal a := h
      obtain ⟨a, ha, hval, hfeas, hdom⟩ := h'
      have hub : lp1.objective a ≤ 29820 := lp1_bound hfeas
      have hlb : lp1.objective (72, 84) ≤ lp1.objective a :=
        hdom (72, 84) lp1_feasible_opt
      rw [lp1_obj_opt] at hlb
      have hobj : lp1.objective a = 29820 := le_antisymm hub hlb
      have haeq : a = (72, 84) := lp1_unique hfeas hobj
      subst haeq
      exact ⟨rfl, by rw [hval, hobj], by rw [ha]⟩
  | infeasible =>
      have h' : ∀ a : ℝ × ℝ, ¬ lp1.feasible a := h.1
      exact absurd lp1_feasible_opt (h' _)
  | unbounded =>
      have h' : (∃ a : ℝ × ℝ, lp1.feasible a) ∧ lp1.Unbounded ∧
          val = none ∧ asg = none := h
      obtain ⟨-, hunb, -, -⟩ := h'
      obtain ⟨a, hfeas, hgt⟩ := hunb 29820
      have hgt' : (29820 : ℝ) < lp1.objective a := hgt
      have hle := lp1_bound hfeas
      linarith
  | solverError => exact h.elim

theorem claim_C1_lp_solution_witness :
    ResultCorrect lp1 ⟨.optimal, some 29820, some (72, 84)⟩ ∧
      (Result.mk (α := ℝ × ℝ) .optimal (some 29820) (some (72, 84))).status =
        .optimal := by
  have hc : ResultCorrect lp1 ⟨.optimal, some 29820, some (72, 84)⟩ := by
    refine ⟨(72, 84), rfl, by rw [lp1_obj_opt], lp1_feasible_opt, fun b hb => ?_⟩
    show lp1.objective b ≤ lp1.objective (72, 84)
    rw [lp1_obj_opt]
    exact lp1_bound hb
  exact ⟨hc, (claim_C1_lp_solution _ hc).1⟩

/-! ## Scenario 4: the trivially infeasible 2-D problem -/

theorem infeas2d_empty (q : ℝ × ℝ) : ¬ infeas2d.feasible q := by
  rintro ⟨h1, h2⟩
  nlinarith [sq_nonneg (q.1 - q.2), sq_nonneg (q.1 + q.2)]

/-- C3: for the problem minimizing x + y subject to x + y ≤ −5 and
x² + y² ≤ 1, every correct solver Result has status Infeasible: no point of
the unit disk satisfies x + y ≤ −5. -/
theorem claim_C3_infeasible_2d (r : Result (ℝ × ℝ))
    (h : ResultCorrect infeas2d r) : r.status = .infeasible := by
  obtain ⟨st, val, asg⟩ := r
  cases st with
  | optimal =>
      have h' : ∃ a : ℝ × ℝ, asg = some a ∧ val = some (infeas2d.objective a) ∧
          infeas2d.IsOptimal a := h
      obtain ⟨a, -, -, hfeas, -⟩ := h'
      exact absurd hfeas (infeas2d_empty a)
  | infeasible => rfl
  | unbounded =>
      have h' : (∃ a : ℝ × ℝ, infeas2d.feasible a) ∧ infeas2d.Unbounded ∧
          val = none ∧ asg = none := h
      obtain ⟨⟨a, hfeas⟩, -⟩ := h'
      exact absurd hfeas (infeas2d_empty a)
  | solverError => exact h.elim

theorem claim_C3_infeasible_2d_witness :
    ResultCorrect infeas2d ⟨.infeasible, none, none⟩ ∧
      (Result.mk (α := ℝ × ℝ) .infeasible none none).status = .infeasible := by
  have hc : ResultCorrect infeas2d ⟨.infeasible, none, none⟩ :=
    ⟨fun a => infeas2d_empty a, rfl, rfl⟩
  exact ⟨hc, claim_C3_infeasible_2d _ hc⟩

/-! ## Scenario 2: the tightened problem -/

theorem lp2_feasible_zero : lp2.feasible (0, 0) := by
  refine ⟨le_refl 0, le_refl 0, by norm_num, by norm_num, by norm_num, by norm_num⟩

theorem lp2_bound {q : ℝ × ℝ} (h : lp2.feasible q) : lp2.objective q ≤ 375 := by
  obtain ⟨hx, hy, -, -, -, he⟩ := h
  have hx1 : q.1 ≤ 1 := by nlinarith [sq_nonneg q.2]
  have hy1 : q.2 ≤ 1 := by nlinarith [sq_nonneg q.1]
  show 140 * q.1 + 235 * q.2 ≤ 375
  linarith

/-- C2 counterexample: an Infeasible-status Result is not a correct solver
outcome for the tightened problem of Scenario 2, because its feasible region
is nonempty: (0, 0) satisfies all linear constraints and 0² + 2·0² ≤ 1. -/
theorem claim_C2_counterexample :
    ¬ ResultCorrect lp2 ⟨.infeasible, none, none⟩ := by
  intro h
  have h' : ∀ a : ℝ × ℝ, ¬ lp2.feasible a := h.1
  exact absurd lp2_feasible_zero (h' (0, 0))

/-- C2 (amended): for the linear program of Scenario 1 with the additional
constraint x² + 2y² ≤ 1 appended, every correct solver Result has status
optimal (not Infeasible): the region is nonempty — it contains (0, 0) — and
the objective is bounded on it. -/
theorem claim_C2_tightened_status (r : Result (ℝ × ℝ))
    (h : ResultCorrect lp2 r) : r.status = .optimal := by
  obtain ⟨st, val, asg⟩ := r
  cases st with
  | optimal => rfl
  | infeasible =>
      have h' : ∀ a : ℝ × ℝ, ¬ lp2.feasible a := h.1
      exact absurd lp2_feasible_zero (h' (0, 0))
  | unbounded =>
      have h' : (∃ a : ℝ × ℝ, lp2.feasible a) ∧ lp2.Unbounded ∧
          val = none ∧ asg = none := h
      obtain ⟨-, hunb, -, -⟩ := h'
      obtain ⟨a, hfeas, hgt⟩ := hunb 375
      have hgt' : (375 : ℝ) < lp2.objective a := hgt
      have hle := lp2_bound hfeas
      linarith
  | solverError => exact h.elim

theorem claim_C2_tightened_status_witness :
    ResultCorrect lp2
        ⟨.optimal, some (2 * Real.sqrt (94425 / 8)),
          some (70 / Real.sqrt (94425 / 8), 235 / (4 * Real.sqrt (94425 / 8)))⟩ ∧
      (Result.mk (α := ℝ × ℝ) .optimal (some (2 * Real.sqrt (94425 / 8)))
          (some (70 / Real.sqrt (94425 / 8),
            235 / (4 * Real.sqrt (94425 / 8))))).status = .optimal := by
  set s : ℝ := Real.sqrt (94425 / 8) with hs_def
  have hs_pos : 0 < s := Real.sqrt_pos.mpr (by norm_num)
  have hs2 : s ^ 2 = 94425 / 8 := Real.sq_sqrt (by norm_num)
  have hs0 : s ≠ 0 := ne_of_gt hs_pos
  have hs100 : (100 : ℝ) ≤ s := by nlinarith
  have h70 : 70 / s ≤ 1 := by rw [div_le_one hs_pos]; linarith
  have h235 : 235 / (4 * s) ≤ 1 := by
    rw [div_le_one (by positivity)]; linarith
  have hfeas : lp2.feasible (70 / s, 235 / (4 * s)) := by
    refine ⟨by positivity, by positivity, by dsimp only; linarith,
      by dsimp only; linarith, by dsimp only; linarith, ?_⟩
    show (70 / s) ^ 2 + 2 * (235 / (4 * s)) ^ 2 ≤ 1
    have : (70 / s) ^ 2 + 2 * (235 / (4 * s)) ^ 2 = 1 := by
      field_simp
      nlinarith
    linarith
  have hval : (2 * s : ℝ) = lp2.objective (70 / s, 235 / (4 * s)) := by
    show 2 * s = 140 * (70 / s) + 235 * (235 / (4 * s))
    field_simp
    nlinarith
  have hopt : ∀ b : ℝ × ℝ, lp2.feasible b →
      lp2.objective b ≤ lp2.objective (70 / s, 235 / (4 * s)) := by
    intro b hb
    obtain ⟨hbx, hby, -, -, -, hbe⟩ := hb
    rw [← hval]
    show 140 * b.1 + 235 * b.2 ≤ 2 * s
    have hsq : (140 * b.1 + 235 * b.2) ^ 2 ≤ 94425 / 2 := by
      nlinarith [sq_nonneg (235 * b.1 - 280 * b.2)]
    nlinarith [sq_nonneg (140 * b.1 + 235 * b.2)]
  have hc : ResultCorrect lp2
      ⟨.optimal, some (2 * s), some (70 / s, 235 / (4 * s))⟩ :=
    ⟨(70 / s, 235 / (4 * s)), rfl, by rw [hval], hfeas, fun b hb => hopt b hb⟩
  exact ⟨hc, claim_C2_tightened_status _ hc⟩

/-! ## Scenario 3: unconstrained least squares -/

/-- C7: for the unconstrained least-squares problem minimizing ‖Ax − b‖ with
A of shape 16 × 8 and b a 16-vector and no constraints, every correct solver
Result has status Optimal with a value ≥ 0. -/
theorem claim_C7_least_squares (A : Matrix (Fin 16) (Fin 8) ℝ) (b : Fin 16 → ℝ)
    (r : Result (Fin 8 → ℝ)) (h : ResultCorrect (leastSquares A b) r) :
    r.status = .optimal ∧ ∃ v : ℝ, r.value = some v ∧ 0 ≤ v := by
  obtain ⟨st, val, asg⟩ := r
  cases st with
  | optimal =>
      have h' : ∃ a : Fin 8 → ℝ, asg = some a ∧
          val = some ((leastSquares A b).objective a) ∧
          (leastSquares A b).IsOptimal a := h
      obtain ⟨a, -, hval, -⟩ := h'
      exact ⟨rfl, (leastSquares A b).objective a, hval, norm_nonneg _⟩
  | infeasible =>
      have h' : ∀ a : Fin 8 → ℝ, ¬ (leastSquares A b).feasible a := h.1
      exact absurd trivial (h' fun _ => 0)
  | unbounded =>
      have h' : (∃ a : Fin 8 → ℝ, (leastSquares A b).feasible a) ∧
          (leastSquares A b).Unbounded ∧ val = none ∧ asg = none := h
      obtain ⟨a, -, hlt⟩ := h'.2.1 0
      have hlt' : (leastSquares A b).objective a < 0 := hlt
      exact absurd hlt' (not_lt.mpr (norm_nonneg _))
  | solverError => exact h.elim

theorem claim_C7_least_squares_witness :
    ResultCorrect (leastSquares 0 0) ⟨.optimal, some 0, some 0⟩ ∧
      ((Result.mk (α := Fin 8 → ℝ) .optimal (some 0) (some 0)).status = .optimal ∧
        ∃ v : ℝ, (Result.mk (α := Fin 8 → ℝ) .optimal (some 0) (some 0)).value =
          some v ∧ 0 ≤ v) := by
  have hobj : (leastSquares (0 : Matrix (Fin 16) (Fin 8) ℝ) 0).objective 0 = 0 := by
    show cvxNorm2
        (fun i => (0 : Matrix (Fin 16) (Fin 8) ℝ).mulVec 0 i - (0 : Fin 16 → ℝ) i) = 0
    rw [cvxNorm2_eq]
    simp
  have hc : ResultCorrect (leastSquares 0 0) ⟨.optimal, some 0, some 0⟩ := by
    refine ⟨0, rfl, by rw [hobj], trivial, fun q _ => ?_⟩
    show (leastSquares 0 0).objective 0 ≤ (leastSquares 0 0).objective q
    rw [hobj]
    exact norm_nonneg _
  exact ⟨hc, claim_C7_least_squares 0 0 _ hc⟩

/-! ## Error-propagation policy and DCP discipline -/

theorem writeBack_none {r : SolveResult} {vars : List ℕ} {store : VarStore} {v : ℕ}
    (hv : v ∈ vars) (hst : r.status ≠ .optimal) :
    writeBack r vars store v = none := by
  unfold writeBack
  rw [if_pos hv]
  obtain ⟨st, val, asg⟩ := r
  cases st with
  | optimal => exact absurd rfl hst
  | infeasible => cases asg <;> rfl
  | unbounded => cases asg <;> rfl
  | solverError => cases asg <;> rfl

/-- C4: construction-time errors are raised immediately to the caller —
shape-incompatible composition of expressions or constraints fails with
ShapeMismatch, a DCP-inconsistent objective fails Problem building with
DCPViolation — while every solve-time outcome is returned as a status inside
the Result: `solve` always returns `.ok` with the solver's status mapped
into the Result status taxonomy, and never an exception. -/
theorem claim_C4_error_policy :
    (∀ a b : Expr, broadcastShape a.shape b.shape = none →
      Expr.add a b = .error .shapeMismatch) ∧
    (∀ (l r : Expr) (rel : Rel), broadcastShape l.shape r.shape = none →
      Constraint.build l r rel = .error .shapeMismatch) ∧
    (∀ (o : Objective) (cs : List Constraint), o.dcpOk = false →
      Problem.build o cs = .error .dcpViolation) ∧
    (∀ (p : Problem) (out : SolverOutput),
      p.solve out = .ok (interpretOutput out) ∧
      (interpretOutput out).status = mapStatus out.status) := by
  refine ⟨?_, ?_, ?_, ?_⟩
  · intro a b h
    unfold Expr.add
    rw [h]
  · intro l r rel h
    unfold Constraint.build
    rw [h]
  · intro o cs h
    simp [Problem.build, h]
  · intro p out
    refine ⟨rfl, ?_⟩
    obtain ⟨st, val, asg⟩ := out
    cases st <;> rfl

theorem claim_C4_error_policy_witness :
    Expr.add (.var 0 (.vec 2)) (.var 1 (.vec 3)) = .error .shapeMismatch ∧
    Constraint.build (.var 0 (.vec 2)) (.var 1 (.vec 3)) .le =
      .error .shapeMismatch ∧
    Problem.build ⟨.maximize, .norm .two (.var 0 (.vec 2))⟩ [] =
      .error .dcpViolation ∧
    Problem.solve ⟨⟨.minimize, .var 0 .scalar⟩, []⟩ ⟨.sInfeasible, none, none⟩ =
      .ok (interpretOutput ⟨.sInfeasible, none, none⟩) :=
  ⟨claim_C4_error_policy.1 _ _ (by decide),
   claim_C4_error_policy.2.1 _ _ _ (by decide),
   claim_C4_error_policy.2.2.1 _ _ (by decide),
   (claim_C4_error_policy.2.2.2 ⟨⟨.minimize, .var 0 .scalar⟩, []⟩
     ⟨.sInfeasible, none, none⟩).1⟩

/-- C5: after a solve whose Result status is SolverError, Infeasible or
Unbounded, reading a Variable referenced by the Problem returns the
undefined sentinel; any value stored by a prior solve has been invalidated
rather than left readable. -/
theorem claim_C5_values_invalidated (p : Problem) (solver : Solver)
    (params : ParamStore) (store : VarStore) (v : ℕ) (hv : v ∈ p.varIds)
    (hst : (p.solveSession solver params store).1.status = .infeasible ∨
           (p.solveSession solver params store).1.status = .unbounded ∨
           (p.solveSession solver params store).1.status = .solverError) :
    (p.solveSession solver params store).2 v = none := by
  have hst' : (interpretOutput (solver p params)).status = .infeasible ∨
      (interpretOutput (solver p params)).status = .unbounded ∨
      (interpretOutput (solver p params)).status = .solverError := hst
  have hne : (interpretOutput (solver p params)).status ≠ .optimal := by
    rcases hst' with h | h | h <;> (intro heq; rw [heq] at h; exact Status.noConfusion h)
  exact writeBack_none hv hne

theorem claim_C5_values_invalidated_witness :
    (Problem.solveSession ⟨⟨.minimize, .var 0 .scalar⟩, []⟩
        (fun _ _ => ⟨.sInfeasible, none, none⟩) (fun _ => 0)
        (fun _ => some 5)).2 0 = none :=
  claim_C5_values_invalidated _ _ _ _ 0 (by decide) (Or.inl rfl)

/-- C6: with a deterministic external solver, two consecutive solves of the
same Problem with unchanged Parameter values yield identical Results and
leave the variable store unchanged after the first write-back; the Result
does not depend on the variable store at all — no hidden state persists
across solves beyond the Parameter values. -/
theorem claim_C6_idempotent_solves (p : Problem) (solver : Solver)
    (params : ParamStore) (store store' : VarStore) :
    (p.solveSession solver params ((p.solveSession solver params store).2)).1 =
      (p.solveSession solver params store).1 ∧
    (p.solveSession solver params ((p.solveSession solver params store).2)).2 =
      (p.solveSession solver params store).2 ∧
    (p.solveSession solver params store).1 =
      (p.solveSession solver params store').1 := by
  have h2 : ∀ v, writeBack (interpretOutput (solver p params)) p.varIds
      (writeBack (interpretOutput (solver p params)) p.varIds store) v =
      writeBack (interpretOutput (solver p params)) p.varIds store v := by
    intro v
    by_cases hv : v ∈ p.varIds <;> simp [writeBack, hv]
  exact ⟨rfl, funext h2, rfl⟩

/-- C9: building a Problem whose Minimize objective is not convex, or whose
Maximize objective is not concave, fails with DCPViolation. -/
theorem claim_C9_objective_sense (o : Objective) (cs : List Constraint)
    (h : (o.sense = .minimize ∧ o.expr.curvature.isConvex = false) ∨
         (o.sense = .maximize ∧ o.expr.curvature.isConcave = false)) :
    Problem.build o cs = .error .dcpViolation := by
  have hdcp : o.dcpOk = false := by
    rcases h with ⟨hs, hc⟩ | ⟨hs, hc⟩ <;> simp [Objective.dcpOk, hs, hc]
  simp [Problem.build, hdcp]

theorem claim_C9_objective_sense_witness :
    Problem.build ⟨.minimize, .scale (-1) (.norm .two (.var 0 (.vec 2)))⟩ [] =
      .error .dcpViolation :=
  claim_C9_objective_sense _ _ (Or.inl ⟨rfl, by decide⟩)

/-- C10: a Problem may be constructed from an Objective alone, with no
constraints argument; this is the same as building with the empty constraint
sequence, it succeeds whenever the objective is DCP-consistent, and the
resulting Problem has the empty constraint sequence (so solving it is
solving the unconstrained problem). -/
theorem claim_C10_default_constraints (o : Objective) :
    Problem.build1 o = Problem.build o [] ∧
    (o.dcpOk = true → Problem.build1 o = .ok ⟨o, []⟩) ∧
    (∀ p : Problem, Problem.build1 o = .ok p → p.constraints = []) := by
  refine ⟨?_, ?_, ?_⟩
  · unfold Problem.build1 Problem.build
    simp
  · intro h
    simp [Problem.build1, h]
  · intro p hp
    unfold Problem.build1 at hp
    by_cases h : o.dcpOk
    · rw [if_pos h] at hp
      obtain rfl : (⟨o, []⟩ : Problem) = p := by
        injection hp
      rfl
    · rw [if_neg h] at hp
      exact Except.noConfusion hp

theorem claim_C10_default_constraints_witness :
    Problem.build1 ⟨.minimize, .norm .two (.var 0 (.vec 2))⟩ =
      Problem.build ⟨.minimize, .norm .two (.var 0 (.vec 2))⟩ [] ∧
    Problem.build1 ⟨.minimize, .norm .two (.var 0 (.vec 2))⟩ =
      .ok ⟨⟨.minimize, .norm .two (.var 0 (.vec 2))⟩, []⟩ :=
  ⟨(claim_C10_default_constraints _).1,
   (claim_C10_default_constraints _).2.1 (by decide)⟩

end Cvx
